import Mathlib

/-!
Verification development for the climate-risk-premium engine.

Shallow embedding of the core financial engine:
- credit rating assessment (src/risk/credit_rating.py)
- cash-flow engine (src/financials/cashflow.py)
- debt amortization (src/financials/metrics.py)
- carbon pricing scenarios (src/scenarios/carbon_pricing.py)
- scenario loading in the pipeline runner (src/pipeline/runner.py)

Python floats are modelled by exact rationals; the one place the source
computes an irrational quantity (geometric extrapolation of carbon prices
with a fractional power) is modelled over the reals.
-/

namespace RiskPremium

/-! ## Credit rating scale (credit_rating.py, class Rating) -/

/-- The 10-level extended rating scale of credit_rating.py. -/
inductive Rating where
  | AAA | AA | A | BBB | BB | B | CCC | CC | C | D
deriving DecidableEq, Repr

/-- Enum value of the rating: 1 = AAA (best) .. 10 = D (worst);
mirrors the Python enum values and the numeric_score property. -/
def Rating.value : Rating → ℕ
  | .AAA => 1
  | .AA => 2
  | .A => 3
  | .BBB => 4
  | .BB => 5
  | .B => 6
  | .CCC => 7
  | .CC => 8
  | .C => 9
  | .D => 10

/-- Python Rating(int) construction: defined for 1..10, raises (none) otherwise. -/
def Rating.ofValue? : ℤ → Option Rating
  | 1 => some .AAA
  | 2 => some .AA
  | 3 => some .A
  | 4 => some .BBB
  | 5 => some .BB
  | 6 => some .B
  | 7 => some .CCC
  | 8 => some .CC
  | 9 => some .C
  | 10 => some .D
  | _ => none

/-- is_distressed property: value >= 7 (CCC or worse). -/
def Rating.is_distressed (r : Rating) : Prop := 7 ≤ r.value

instance : DecidablePred Rating.is_distressed := fun r => by
  unfold Rating.is_distressed; infer_instance

/-! ## Rating metrics (credit_rating.py, dataclass RatingMetrics) -/

/-- Financial metrics used for credit rating assessment. -/
structure RatingMetrics where
  capacity_mw : ℚ
  ebitda_to_fixed_assets : ℚ
  ebitda_to_interest : ℚ
  net_debt_to_ebitda : ℚ
  debt_to_equity : ℚ
  debt_to_assets : ℚ
  dscr : ℚ := 1
  is_ebitda_negative : Bool := false
  consecutive_loss_years : ℕ := 0

/-! ## Component rating functions (credit_rating.py, rate_*) -/

/-- rate_capacity: rating from installed capacity (MW). -/
def rate_capacity (capacity_mw : ℚ) : Rating :=
  if 2000 ≤ capacity_mw then .AAA
  else if 800 ≤ capacity_mw then .AA
  else if 400 ≤ capacity_mw then .A
  else if 100 ≤ capacity_mw then .BBB
  else if 20 ≤ capacity_mw then .BB
  else .B

/-- rate_profitability: rating from EBITDA/Fixed Assets (%), with the
negative-EBITDA distress branches of the source. -/
def rate_profitability (ebitda_to_fixed_assets : ℚ) (is_negative : Bool := false) : Rating :=
  if is_negative = true ∨ ebitda_to_fixed_assets < -20 then .CC
  else if ebitda_to_fixed_assets < -10 then .CCC
  else if ebitda_to_fixed_assets < 0 then .B
  else if 15 ≤ ebitda_to_fixed_assets then .AAA
  else if 11 ≤ ebitda_to_fixed_assets then .AA
  else if 8 ≤ ebitda_to_fixed_assets then .A
  else if 4 ≤ ebitda_to_fixed_assets then .BBB
  else if 1 ≤ ebitda_to_fixed_assets then .BB
  else .B

/-- rate_coverage: rating from EBITDA/Interest (times), with the
negative-coverage distress branches of the source. -/
def rate_coverage (ebitda_to_interest : ℚ) : Rating :=
  if ebitda_to_interest < -5 then .D
  else if ebitda_to_interest < -2 then .C
  else if ebitda_to_interest < 0 then .CC
  else if ebitda_to_interest < (1/2 : ℚ) then .CCC
  else if 12 ≤ ebitda_to_interest then .AAA
  else if 6 ≤ ebitda_to_interest then .AA
  else if 4 ≤ ebitda_to_interest then .A
  else if 2 ≤ ebitda_to_interest then .BBB
  else if 1 ≤ ebitda_to_interest then .BB
  else .B

/-- rate_dscr: rating from the Debt Service Coverage Ratio. -/
def rate_dscr (dscr : ℚ) : Rating :=
  if dscr < 0 then .D
  else if dscr < (1/2 : ℚ) then .C
  else if dscr < (4/5 : ℚ) then .CC
  else if dscr < 1 then .CCC
  else if (5/2 : ℚ) ≤ dscr then .AAA
  else if 2 ≤ dscr then .AA
  else if (8/5 : ℚ) ≤ dscr then .A
  else if (13/10 : ℚ) ≤ dscr then .BBB
  else if (11/10 : ℚ) ≤ dscr then .BB
  else .B

/-- rate_net_debt_leverage: rating from Net Debt/EBITDA (times). -/
def rate_net_debt_leverage (net_debt_to_ebitda : ℚ) (is_ebitda_negative : Bool := false) :
    Rating :=
  if is_ebitda_negative then .CC
  else if net_debt_to_ebitda < 0 then .AAA
  else if 20 < net_debt_to_ebitda then .CCC
  else if net_debt_to_ebitda ≤ 1 then .AAA
  else if net_debt_to_ebitda ≤ 4 then .AA
  else if net_debt_to_ebitda ≤ 7 then .A
  else if net_debt_to_ebitda ≤ 10 then .BBB
  else if net_debt_to_ebitda ≤ 12 then .BB
  else .B

/-- rate_equity_leverage: rating from Debt-to-Equity (%). -/
def rate_equity_leverage (debt_to_equity : ℚ) : Rating :=
  if debt_to_equity ≤ 80 then .AAA
  else if debt_to_equity ≤ 150 then .AA
  else if debt_to_equity ≤ 250 then .A
  else if debt_to_equity ≤ 300 then .BBB
  else if debt_to_equity ≤ 400 then .BB
  else .B

/-- rate_asset_leverage: rating from Debt-to-Assets (%). -/
def rate_asset_leverage (debt_to_assets : ℚ) : Rating :=
  if debt_to_assets ≤ 20 then .AAA
  else if debt_to_assets ≤ 40 then .AA
  else if debt_to_assets ≤ 60 then .A
  else if debt_to_assets ≤ 80 then .BBB
  else if debt_to_assets ≤ 90 then .BB
  else .B

/-! ## Overall assessment (credit_rating.py, assess_credit_rating) -/

/-- Distress trigger computed at the top of assess_credit_rating:
is_ebitda_negative flag or a negative EBITDA/Fixed-Assets ratio. -/
def computed_is_ebitda_negative (m : RatingMetrics) : Bool :=
  m.is_ebitda_negative || decide (m.ebitda_to_fixed_assets < 0)

/-- The seven component ratings computed inside assess_credit_rating. -/
structure ComponentRatings where
  capacity : Rating
  profitability : Rating
  coverage : Rating
  dscr : Rating
  net_debt_leverage : Rating
  equity_leverage : Rating
  asset_leverage : Rating

/-- The component_ratings dict of assess_credit_rating. -/
def component_ratings (m : RatingMetrics) : ComponentRatings :=
  let neg := computed_is_ebitda_negative m
  { capacity := rate_capacity m.capacity_mw
    profitability := rate_profitability m.ebitda_to_fixed_assets neg
    coverage := rate_coverage m.ebitda_to_interest
    dscr := rate_dscr m.dscr
    net_debt_leverage := rate_net_debt_leverage m.net_debt_to_ebitda neg
    equity_leverage := rate_equity_leverage m.debt_to_equity
    asset_leverage := rate_asset_leverage m.debt_to_assets }

/-- Weighted score of assess_credit_rating: sum of component values times the
fixed weights (capacity 0.05, profitability 0.10, coverage 0.15, dscr 0.35,
net debt 0.15, equity 0.10, asset 0.10). Exact rational arithmetic models the
float computation. -/
def weighted_score (c : ComponentRatings) : ℚ :=
  (5/100) * c.capacity.value + (10/100) * c.profitability.value
    + (15/100) * c.coverage.value + (35/100) * c.dscr.value
    + (15/100) * c.net_debt_leverage.value + (10/100) * c.equity_leverage.value
    + (10/100) * c.asset_leverage.value

/-- Python round(): round half to even (banker rounding), modelled on the
exact rational value of the score. -/
def pythonRound (q : ℚ) : ℤ :=
  if Int.fract q < (1/2 : ℚ) then ⌊q⌋
  else if (1/2 : ℚ) < Int.fract q then ⌊q⌋ + 1
  else if ⌊q⌋ % 2 = 0 then ⌊q⌋ else ⌊q⌋ + 1

/-- The distress override of assess_credit_rating: the critical metrics are
dscr, coverage, profitability (in that order); those with value >= 7 form the
distress list; if nonempty, the rounded score is raised to the worst of them. -/
def distress_override (rounded : ℤ) (dscrV covV profV : ℕ) : ℤ :=
  let distress := [dscrV, covV, profV].filter (fun v => 7 ≤ v)
  if distress.isEmpty then rounded
  else max rounded ((distress.foldl max 0 : ℕ) : ℤ)

/-- Final overall score of assess_credit_rating: weighted average rounded to
the nearest level, clamped into 1..10, then distress-overridden. -/
def overallScore (m : RatingMetrics) : ℤ :=
  let c := component_ratings m
  let rounded : ℤ := max 1 (min 10 (pythonRound (weighted_score c)))
  distress_override rounded c.dscr.value c.coverage.value c.profitability.value

/-- assess_credit_rating, reduced to the overall rating it constructs.
Returns none exactly when Rating(rounded_score) would raise in Python,
i.e. when the final score is outside 1..10. The rationale string and the
returned metrics echo are omitted. -/
def assess_credit_rating (m : RatingMetrics) : Option Rating :=
  Rating.ofValue? (overallScore m)

/-! ## Basic facts about the rating scale -/

theorem Rating.value_le_ten (r : Rating) : r.value ≤ 10 := by
  cases r <;> simp [Rating.value]

theorem Rating.one_le_value (r : Rating) : 1 ≤ r.value := by
  cases r <;> simp [Rating.value]

theorem Rating.ofValue?_isSome {n : ℤ} (h1 : 1 ≤ n) (h2 : n ≤ 10) :
    (Rating.ofValue? n).isSome := by
  unfold Rating.ofValue?
  interval_cases n <;> simp

theorem Rating.ofValue?_value {n : ℤ} {r : Rating} (h : Rating.ofValue? n = some r) :
    (r.value : ℤ) = n := by
  unfold Rating.ofValue? at h
  match n, h with
  | 1, h => cases h; rfl
  | 2, h => cases h; rfl
  | 3, h => cases h; rfl
  | 4, h => cases h; rfl
  | 5, h => cases h; rfl
  | 6, h => cases h; rfl
  | 7, h => cases h; rfl
  | 8, h => cases h; rfl
  | 9, h => cases h; rfl
  | 10, h => cases h; rfl

/-! ## Structure of the distress override -/

/-- The filter-then-max distress override equals: raise the rounded score to
the maximum of the three critical values whenever that maximum reaches the
distressed band. -/
theorem distress_override_cases (r : ℤ) (dv cv pv : ℕ) :
    distress_override r dv cv pv =
      if 7 ≤ max dv (max cv pv) then max r ((max dv (max cv pv) : ℕ) : ℤ) else r := by
  unfold distress_override
  by_cases h1 : 7 ≤ dv <;> by_cases h2 : 7 ≤ cv <;> by_cases h3 : 7 ≤ pv <;>
    simp [h1, h2, h3, List.filter_cons] <;> omega

theorem dscr_le_distress_override {dv : ℕ} (r : ℤ) (cv pv : ℕ) (h : 7 ≤ dv) :
    (dv : ℤ) ≤ distress_override r dv cv pv := by
  rw [distress_override_cases]
  split_ifs <;> omega

theorem cov_le_distress_override {cv : ℕ} (r : ℤ) (dv pv : ℕ) (h : 7 ≤ cv) :
    (cv : ℤ) ≤ distress_override r dv cv pv := by
  rw [distress_override_cases]
  split_ifs <;> omega

theorem prof_le_distress_override {pv : ℕ} (r : ℤ) (dv cv : ℕ) (h : 7 ≤ pv) :
    (pv : ℤ) ≤ distress_override r dv cv pv := by
  rw [distress_override_cases]
  split_ifs <;> omega

theorem overallScore_bounds (m : RatingMetrics) :
    1 ≤ overallScore m ∧ overallScore m ≤ 10 := by
  unfold overallScore
  rw [distress_override_cases]
  have h1 := Rating.value_le_ten (component_ratings m).dscr
  have h2 := Rating.value_le_ten (component_ratings m).coverage
  have h3 := Rating.value_le_ten (component_ratings m).profitability
  constructor <;> (split_ifs <;> omega)

/-! ## Claim theorems about the rating assessor -/

/-- C10: for every RatingMetrics input, assess_credit_rating succeeds in
constructing a valid Rating: the weighted average is rounded and clamped into
1..10 and the distress override (a max with a component value, itself at most
10) keeps the final score inside the valid 10-level range. -/
theorem assess_credit_rating_total_valid (m : RatingMetrics) :
    ∃ r, assess_credit_rating m = some r ∧ 1 ≤ r.value ∧ r.value ≤ 10 := by
  obtain ⟨hlo, hhi⟩ := overallScore_bounds m
  obtain ⟨r, hr⟩ := Option.isSome_iff_exists.mp (Rating.ofValue?_isSome hlo hhi)
  exact ⟨r, hr, Rating.one_le_value r, Rating.value_le_ten r⟩

/-- C1: the overall rating returned by assess_credit_rating is numerically at
least each of the dscr, coverage and profitability component ratings that
falls in the distressed band (value >= 7): the overall rating is never better
than the worst distressed critical factor. -/
theorem overall_rating_dominates_distressed_critical_factors
    (m : RatingMetrics) (r : Rating) (h : assess_credit_rating m = some r) :
    (7 ≤ (component_ratings m).dscr.value →
      (component_ratings m).dscr.value ≤ r.value) ∧
    (7 ≤ (component_ratings m).coverage.value →
      (component_ratings m).coverage.value ≤ r.value) ∧
    (7 ≤ (component_ratings m).profitability.value →
      (component_ratings m).profitability.value ≤ r.value) := by
  have hv : (r.value : ℤ) = overallScore m := Rating.ofValue?_value h
  have hscore : overallScore m = distress_override
      (max 1 (min 10 (pythonRound (weighted_score (component_ratings m)))))
      (component_ratings m).dscr.value (component_ratings m).coverage.value
      (component_ratings m).profitability.value := rfl
  rw [hscore] at hv
  refine ⟨fun hd => ?_, fun hc => ?_, fun hp => ?_⟩
  · have := dscr_le_distress_override
      (max 1 (min 10 (pythonRound (weighted_score (component_ratings m)))))
      (component_ratings m).coverage.value (component_ratings m).profitability.value hd
    omega
  · have := cov_le_distress_override
      (max 1 (min 10 (pythonRound (weighted_score (component_ratings m)))))
      (component_ratings m).dscr.value (component_ratings m).profitability.value hc
    omega
  · have := prof_le_distress_override
      (max 1 (min 10 (pythonRound (weighted_score (component_ratings m)))))
      (component_ratings m).dscr.value (component_ratings m).coverage.value hp
    omega

/-- Concrete metrics with a defaulted DSCR, used to instantiate the
distress-override theorem. -/
def exampleDistressedMetrics : RatingMetrics :=
  { capacity_mw := 2100, ebitda_to_fixed_assets := 5, ebitda_to_interest := 3,
    net_debt_to_ebitda := 3, debt_to_equity := 100, debt_to_assets := 50,
    dscr := -1 }

theorem overall_rating_dominates_witness :
    (component_ratings exampleDistressedMetrics).dscr.value ≤ Rating.D.value :=
  (overall_rating_dominates_distressed_critical_factors exampleDistressedMetrics
    Rating.D (by
      norm_num [assess_credit_rating, overallScore, component_ratings,
        computed_is_ebitda_negative, rate_capacity, rate_profitability,
        rate_coverage, rate_dscr, rate_net_debt_leverage, rate_equity_leverage,
        rate_asset_leverage, weighted_score, pythonRound, Int.fract,
        distress_override, Rating.value, Rating.ofValue?, exampleDistressedMetrics])).1
    (by norm_num [component_ratings, rate_dscr, Rating.value, exampleDistressedMetrics])

/-- C7: negative ratios are valid inputs routed to the bad end of the scale,
never errors (the rating functions are total). A negative interest coverage
rates at least CCC (value 7), a negative DSCR rates D, and a negative
EBITDA/Fixed-Assets ratio rates in the worse half of the 10-level scale
(value >= 6, i.e. B or worse) for any distress flag; with the negative-EBITDA
flag set (as assess_credit_rating sets it whenever the ratio is negative) it
rates CC (value 8). -/
theorem negative_ratios_route_to_distress :
    (∀ x : ℚ, x < 0 → 7 ≤ (rate_coverage x).value) ∧
    (∀ d : ℚ, d < 0 → 7 ≤ (rate_dscr d).value) ∧
    (∀ e : ℚ, e < 0 →
      (∀ b : Bool, 6 ≤ (rate_profitability e b).value) ∧
        7 ≤ (rate_profitability e true).value) := by
  refine ⟨fun x hx => ?_, fun d hd => ?_, fun e he => ⟨fun b => ?_, ?_⟩⟩
  · unfold rate_coverage
    split_ifs <;> simp_all [Rating.value]
  · unfold rate_dscr
    split_ifs <;> simp_all [Rating.value]
  · unfold rate_profitability
    split_ifs <;> simp_all [Rating.value]
  · unfold rate_profitability
    split_ifs <;> simp_all [Rating.value]

/-! ## Monotonicity of the assessment in DSCR -/

theorem pythonRound_ge_floor (q : ℚ) : ⌊q⌋ ≤ pythonRound q := by
  unfold pythonRound; split_ifs <;> omega

theorem pythonRound_le_floor_add_one (q : ℚ) : pythonRound q ≤ ⌊q⌋ + 1 := by
  unfold pythonRound; split_ifs <;> omega

/-- Round-half-to-even is monotone, so the rounded weighted score preserves
order of the exact weighted scores. -/
theorem pythonRound_mono {q1 q2 : ℚ} (h : q1 ≤ q2) :
    pythonRound q1 ≤ pythonRound q2 := by
  rcases lt_or_eq_of_le (Int.floor_le_floor h) with hf | hf
  · calc pythonRound q1 ≤ ⌊q1⌋ + 1 := pythonRound_le_floor_add_one q1
      _ ≤ ⌊q2⌋ := by omega
      _ ≤ pythonRound q2 := pythonRound_ge_floor q2
  · have hfr : Int.fract q1 ≤ Int.fract q2 := by
      unfold Int.fract; rw [hf]; linarith
    unfold pythonRound
    rw [hf]
    split_ifs <;> first | omega | linarith

/-- Interval case analysis of rate_dscr: the ten bands of the step function,
read off the threshold chain of the source. -/
theorem rate_dscr_cases (d : ℚ) :
    (d < 0 ∧ (rate_dscr d).value = 10) ∨
    (0 ≤ d ∧ d < (1/2 : ℚ) ∧ (rate_dscr d).value = 9) ∨
    ((1/2 : ℚ) ≤ d ∧ d < (4/5 : ℚ) ∧ (rate_dscr d).value = 8) ∨
    ((4/5 : ℚ) ≤ d ∧ d < 1 ∧ (rate_dscr d).value = 7) ∨
    (1 ≤ d ∧ d < (11/10 : ℚ) ∧ (rate_dscr d).value = 6) ∨
    ((11/10 : ℚ) ≤ d ∧ d < (13/10 : ℚ) ∧ (rate_dscr d).value = 5) ∨
    ((13/10 : ℚ) ≤ d ∧ d < (8/5 : ℚ) ∧ (rate_dscr d).value = 4) ∨
    ((8/5 : ℚ) ≤ d ∧ d < 2 ∧ (rate_dscr d).value = 3) ∨
    (2 ≤ d ∧ d < (5/2 : ℚ) ∧ (rate_dscr d).value = 2) ∨
    ((5/2 : ℚ) ≤ d ∧ (rate_dscr d).value = 1) := by
  unfold rate_dscr
  split_ifs <;> simp_all [Rating.value]

/-- rate_dscr is antitone: a lower DSCR never gets a numerically lower
(better) component rating. -/
theorem rate_dscr_value_antitone {d1 d2 : ℚ} (h : d1 ≤ d2) :
    (rate_dscr d2).value ≤ (rate_dscr d1).value := by
  rcases rate_dscr_cases d1 with
    ⟨ha, hv⟩ | ⟨ha, hb, hv⟩ | ⟨ha, hb, hv⟩ | ⟨ha, hb, hv⟩ | ⟨ha, hb, hv⟩ |
    ⟨ha, hb, hv⟩ | ⟨ha, hb, hv⟩ | ⟨ha, hb, hv⟩ | ⟨ha, hb, hv⟩ | ⟨ha, hv⟩ <;>
  rcases rate_dscr_cases d2 with
    ⟨hc, hw⟩ | ⟨hc, he, hw⟩ | ⟨hc, he, hw⟩ | ⟨hc, he, hw⟩ | ⟨hc, he, hw⟩ |
    ⟨hc, he, hw⟩ | ⟨hc, he, hw⟩ | ⟨hc, he, hw⟩ | ⟨hc, he, hw⟩ | ⟨hc, hw⟩ <;>
  rw [hv, hw] <;> first | decide | linarith

theorem distress_override_mono {r1 r2 : ℤ} {dv1 dv2 cv pv : ℕ}
    (hr : r1 ≤ r2) (hd : dv1 ≤ dv2) :
    distress_override r1 dv1 cv pv ≤ distress_override r2 dv2 cv pv := by
  rw [distress_override_cases, distress_override_cases]
  split_ifs <;> omega

/-- C6: holding every other metric fixed, the input with the lower dscr is
assessed no better (numerically no lower) than the input with the higher
dscr: the dscr component is antitone, the weighted average gives it positive
weight 0.35, rounding and clamping are monotone, and the distress override
only strengthens the effect. -/
theorem overall_rating_antitone_in_dscr
    (m : RatingMetrics) (d1 d2 : ℚ) (r1 r2 : Rating) (hd : d2 ≤ d1)
    (h1 : assess_credit_rating { m with dscr := d1 } = some r1)
    (h2 : assess_credit_rating { m with dscr := d2 } = some r2) :
    r1.value ≤ r2.value := by
  have hv1 : (r1.value : ℤ) = overallScore { m with dscr := d1 } :=
    Rating.ofValue?_value h1
  have hv2 : (r2.value : ℤ) = overallScore { m with dscr := d2 } :=
    Rating.ofValue?_value h2
  have hvd : (rate_dscr d1).value ≤ (rate_dscr d2).value :=
    rate_dscr_value_antitone hd
  have hws : weighted_score (component_ratings { m with dscr := d1 }) ≤
      weighted_score (component_ratings { m with dscr := d2 }) := by
    have hcast : ((rate_dscr d1).value : ℚ) ≤ ((rate_dscr d2).value : ℚ) := by
      exact_mod_cast hvd
    show (5/100 : ℚ) * (rate_capacity m.capacity_mw).value
        + (10/100) * (rate_profitability m.ebitda_to_fixed_assets
            (computed_is_ebitda_negative m)).value
        + (15/100) * (rate_coverage m.ebitda_to_interest).value
        + (35/100) * (rate_dscr d1).value
        + (15/100) * (rate_net_debt_leverage m.net_debt_to_ebitda
            (computed_is_ebitda_negative m)).value
        + (10/100) * (rate_equity_leverage m.debt_to_equity).value
        + (10/100) * (rate_asset_leverage m.debt_to_assets).value
      ≤ (5/100 : ℚ) * (rate_capacity m.capacity_mw).value
        + (10/100) * (rate_profitability m.ebitda_to_fixed_assets
            (computed_is_ebitda_negative m)).value
        + (15/100) * (rate_coverage m.ebitda_to_interest).value
        + (35/100) * (rate_dscr d2).value
        + (15/100) * (rate_net_debt_leverage m.net_debt_to_ebitda
            (computed_is_ebitda_negative m)).value
        + (10/100) * (rate_equity_leverage m.debt_to_equity).value
        + (10/100) * (rate_asset_leverage m.debt_to_assets).value
    linarith
  have hround : max 1 (min 10 (pythonRound
        (weighted_score (component_ratings { m with dscr := d1 })))) ≤
      max 1 (min 10 (pythonRound
        (weighted_score (component_ratings { m with dscr := d2 })))) := by
    have := pythonRound_mono hws
    omega
  have key : overallScore { m with dscr := d1 } ≤
      overallScore { m with dscr := d2 } :=
    distress_override_mono hround hvd
  omega

theorem overall_rating_antitone_in_dscr_witness :
    Rating.A.value ≤ Rating.D.value :=
  overall_rating_antitone_in_dscr exampleDistressedMetrics 2 (-1) Rating.A Rating.D
    (by norm_num)
    (by norm_num [assess_credit_rating, overallScore, component_ratings,
      computed_is_ebitda_negative, rate_capacity, rate_profitability,
      rate_coverage, rate_dscr, rate_net_debt_leverage, rate_equity_leverage,
      rate_asset_leverage, weighted_score, pythonRound, Int.fract,
      distress_override, Rating.value, Rating.ofValue?, exampleDistressedMetrics])
    (by norm_num [assess_credit_rating, overallScore, component_ratings,
      computed_is_ebitda_negative, rate_capacity, rate_profitability,
      rate_coverage, rate_dscr, rate_net_debt_leverage, rate_equity_leverage,
      rate_asset_leverage, weighted_score, pythonRound, Int.fract,
      distress_override, Rating.value, Rating.ofValue?, exampleDistressedMetrics])

theorem negative_ratios_route_to_distress_witness :
    7 ≤ (rate_coverage (-1)).value ∧ 7 ≤ (rate_dscr (-1)).value ∧
      6 ≤ (rate_profitability (-5) false).value ∧
      7 ≤ (rate_profitability (-5) true).value :=
  ⟨negative_ratios_route_to_distress.1 (-1) (by norm_num),
   negative_ratios_route_to_distress.2.1 (-1) (by norm_num),
   (negative_ratios_route_to_distress.2.2 (-5) (by norm_num)).1 false,
   (negative_ratios_route_to_distress.2.2 (-5) (by norm_num)).2⟩

/-! ## Cash-flow engine (src/financials/cashflow.py)

Python floats are modelled by ℚ. The transition scenario enters the engine
only through its get_carbon_price method, modelled as a function ℤ → ℚ.
Dict-style plant parameters with .get defaults are modelled by Option fields
read through getD with the source defaults. -/

/-- Risk adjustment consumed by the engine (src/risk/transition.py). -/
structure TransitionAdjustments where
  capacity_factor : ℚ
  operating_years : ℕ

/-- Risk adjustment consumed by the engine (src/risk/physical.py). -/
structure PhysicalAdjustments where
  outage_rate : ℚ
  capacity_derate : ℚ
  efficiency_loss : ℚ
  water_constrained_capacity : ℚ := 1

/-- Market scenario (src/scenarios/market.py). -/
structure MarketScenario where
  demand_growth_pct : ℚ := 1
  price_sensitivity : ℚ := 1/2
  base_power_price : ℚ := 80

/-- get_demand_factor: demand multiplier relative to the base year. -/
def MarketScenario.get_demand_factor (m : MarketScenario) (year base_year : ℤ) : ℚ :=
  (1 + m.demand_growth_pct / 100) ^ (year - base_year)

/-- get_power_price: power price driven by demand growth and sensitivity. -/
def MarketScenario.get_power_price (m : MarketScenario) (year base_year : ℤ) : ℚ :=
  let demand_factor := m.get_demand_factor year base_year
  let demand_change_pct := (demand_factor - 1) * 100
  let price_change_pct := demand_change_pct * m.price_sensitivity
  m.base_power_price * (1 + price_change_pct / 100)

/-- Plant parameter dict: Option fields model keys that may be absent,
read with the .get defaults of compute_cashflows_timeseries. -/
structure PlantParams where
  capacity_mw : Option ℚ := none
  power_price_per_mwh : Option ℚ := none
  heat_rate_mmbtu_mwh : Option ℚ := none
  fuel_price_per_mmbtu : Option ℚ := none
  fixed_opex_per_kw_year : Option ℚ := none
  variable_opex_per_mwh : Option ℚ := none
  emissions_tCO2_per_mwh : Option ℚ := none
  total_capex_million : Option ℚ := none
  useful_life : Option ℕ := none
  tax_rate : Option ℚ := none
  debt_fraction : Option ℚ := none
  debt_interest_rate : Option ℚ := none
  debt_tenor_years : Option ℕ := none

/-- All inputs of compute_cashflows_timeseries. carbon_price stands for
transition_scenario.get_carbon_price, the only use the engine makes of the
transition scenario object. -/
structure CashflowInputs where
  pp : PlantParams
  carbon_price : ℤ → ℚ
  ta : TransitionAdjustments
  pa : PhysicalAdjustments
  market : Option MarketScenario := none
  start_year : ℤ := 2025

namespace Cashflow

/- Parameter extraction with the source defaults. -/

def capacity (inp : CashflowInputs) : ℚ := inp.pp.capacity_mw.getD 2000
def price (inp : CashflowInputs) : ℚ := inp.pp.power_price_per_mwh.getD 80
def heat_rate (inp : CashflowInputs) : ℚ := inp.pp.heat_rate_mmbtu_mwh.getD (19/2)
def fuel_price (inp : CashflowInputs) : ℚ := inp.pp.fuel_price_per_mmbtu.getD (16/5)
def fixed_opex_per_kw (inp : CashflowInputs) : ℚ := inp.pp.fixed_opex_per_kw_year.getD 42
def variable_opex_per_mwh (inp : CashflowInputs) : ℚ := inp.pp.variable_opex_per_mwh.getD (9/2)
def emissions_rate (inp : CashflowInputs) : ℚ := inp.pp.emissions_tCO2_per_mwh.getD (19/20)
def total_capex (inp : CashflowInputs) : ℚ := inp.pp.total_capex_million.getD 3200 * 1000000
def useful_life (inp : CashflowInputs) : ℕ := inp.pp.useful_life.getD 30
def tax_rate (inp : CashflowInputs) : ℚ := inp.pp.tax_rate.getD (24/100)
def debt_fraction (inp : CashflowInputs) : ℚ := inp.pp.debt_fraction.getD (70/100)
def debt_interest (inp : CashflowInputs) : ℚ := inp.pp.debt_interest_rate.getD (5/100)
def debt_tenor (inp : CashflowInputs) : ℕ := inp.pp.debt_tenor_years.getD 20

def n_years (inp : CashflowInputs) : ℕ := inp.ta.operating_years

def yearAt (inp : CashflowInputs) (i : ℕ) : ℤ := inp.start_year + i

/-- base_cf_series: transition capacity factor, scaled by the market demand
factor and capped at 1.0 when a market scenario is present. -/
def base_cf_at (inp : CashflowInputs) (i : ℕ) : ℚ :=
  match inp.market with
  | some m => min 1 (inp.ta.capacity_factor * m.get_demand_factor (yearAt inp i) inp.start_year)
  | none => inp.ta.capacity_factor

/-- cf_series: derate applied, water hard cap, floored at 0. -/
def cf_at (inp : CashflowInputs) (i : ℕ) : ℚ :=
  max (min (base_cf_at inp i * (1 - inp.pa.capacity_derate))
    inp.pa.water_constrained_capacity) 0

def annual_mwh_at (inp : CashflowInputs) (i : ℕ) : ℚ :=
  capacity inp * 8760 * cf_at inp i

/-- Per-year power price: market price when a market scenario is present. -/
def price_at (inp : CashflowInputs) (i : ℕ) : ℚ :=
  match inp.market with
  | some m => m.get_power_price (yearAt inp i) inp.start_year
  | none => price inp

def revenue_at (inp : CashflowInputs) (i : ℕ) : ℚ := annual_mwh_at inp i * price_at inp i

def fuel_costs_at (inp : CashflowInputs) (i : ℕ) : ℚ :=
  annual_mwh_at inp i * heat_rate inp * fuel_price inp

def variable_opex_at (inp : CashflowInputs) (i : ℕ) : ℚ :=
  annual_mwh_at inp i * variable_opex_per_mwh inp

def fixed_opex_at (inp : CashflowInputs) (_ : ℕ) : ℚ :=
  capacity inp * 1000 * fixed_opex_per_kw inp

def carbon_costs_at (inp : CashflowInputs) (i : ℕ) : ℚ :=
  annual_mwh_at inp i * emissions_rate inp * inp.carbon_price (yearAt inp i)

/-- Outage penalty uses the baseline price parameter, not the market price
path (as in the source). -/
def outage_costs_at (inp : CashflowInputs) (i : ℕ) : ℚ :=
  annual_mwh_at inp i * inp.pa.outage_rate * price inp

def total_costs_at (inp : CashflowInputs) (i : ℕ) : ℚ :=
  fuel_costs_at inp i + variable_opex_at inp i + fixed_opex_at inp i
    + carbon_costs_at inp i + outage_costs_at inp i

def ebitda_at (inp : CashflowInputs) (i : ℕ) : ℚ :=
  revenue_at inp i - total_costs_at inp i

def depreciation_at (inp : CashflowInputs) (_ : ℕ) : ℚ :=
  total_capex inp / useful_life inp

def ebit_at (inp : CashflowInputs) (i : ℕ) : ℚ :=
  ebitda_at inp i - depreciation_at inp i

/-- numpy_financial pmt with fv = 0, payments at period end. -/
def npf_pmt (rate : ℚ) (nper : ℕ) (pv : ℚ) : ℚ :=
  if rate = 0 then -(pv / nper)
  else -(pv * rate * (1 + rate) ^ nper / ((1 + rate) ^ nper - 1))

def debt_amount (inp : CashflowInputs) : ℚ := total_capex inp * debt_fraction inp

def annual_ds (inp : CashflowInputs) : ℚ :=
  -(npf_pmt (debt_interest inp) (debt_tenor inp) (debt_amount inp))

/-- The per-year interest loop of the engine: interest on the running
balance, principal = level payment minus interest, balance floored at 0. -/
def interest_list (rate A : ℚ) : ℕ → ℚ → List ℚ
  | 0, _ => []
  | n + 1, balance =>
    let interest := balance * rate
    let principal := A - interest
    let newBal := balance - principal
    interest :: interest_list rate A n (if newBal < 0 then 0 else newBal)

/-- interest_expense: zeros unless rate and tenor are positive, filled for
the first min(n_years, tenor) years (getD keeps the remaining years at 0). -/
def interest_expense_at (inp : CashflowInputs) (i : ℕ) : ℚ :=
  if 0 < debt_interest inp ∧ 0 < debt_tenor inp then
    (interest_list (debt_interest inp) (annual_ds inp)
      (min (n_years inp) (debt_tenor inp)) (debt_amount inp)).getD i 0
  else 0

def taxable_income_at (inp : CashflowInputs) (i : ℕ) : ℚ :=
  ebit_at inp i - interest_expense_at inp i

/-- Tax floored at zero: no loss carry-forward. -/
def tax_expense_at (inp : CashflowInputs) (i : ℕ) : ℚ :=
  max 0 (taxable_income_at inp i * tax_rate inp)

def net_income_at (inp : CashflowInputs) (i : ℕ) : ℚ :=
  ebit_at inp i - interest_expense_at inp i - tax_expense_at inp i

def nopat_at (inp : CashflowInputs) (i : ℕ) : ℚ := ebit_at inp i * (1 - tax_rate inp)

def capex_at (_ : CashflowInputs) (_ : ℕ) : ℚ := 0

def fcf_at (inp : CashflowInputs) (i : ℕ) : ℚ :=
  nopat_at inp i + depreciation_at inp i - capex_at inp i

end Cashflow

/-- Year-indexed cash-flow statement (dataclass CashFlowTimeSeries),
numpy arrays modelled as lists of length operating_years. -/
structure CashFlowTimeSeries where
  years : List ℤ
  revenue : List ℚ
  fuel_costs : List ℚ
  variable_opex : List ℚ
  fixed_opex : List ℚ
  carbon_costs : List ℚ
  outage_costs : List ℚ
  total_costs : List ℚ
  ebitda : List ℚ
  depreciation : List ℚ
  ebit : List ℚ
  interest_expense : List ℚ
  tax_expense : List ℚ
  net_income : List ℚ
  capex : List ℚ
  free_cash_flow : List ℚ
  capacity_factor : List ℚ

open Cashflow in
/-- compute_cashflows_timeseries: the vectorized numpy computation,
elementwise per year index. -/
def compute_cashflows_timeseries (inp : CashflowInputs) : CashFlowTimeSeries :=
  let n := n_years inp
  { years := (List.range n).map (yearAt inp)
    revenue := (List.range n).map (revenue_at inp)
    fuel_costs := (List.range n).map (fuel_costs_at inp)
    variable_opex := (List.range n).map (variable_opex_at inp)
    fixed_opex := (List.range n).map (fixed_opex_at inp)
    carbon_costs := (List.range n).map (carbon_costs_at inp)
    outage_costs := (List.range n).map (outage_costs_at inp)
    total_costs := (List.range n).map (total_costs_at inp)
    ebitda := (List.range n).map (ebitda_at inp)
    depreciation := (List.range n).map (depreciation_at inp)
    ebit := (List.range n).map (ebit_at inp)
    interest_expense := (List.range n).map (interest_expense_at inp)
    tax_expense := (List.range n).map (tax_expense_at inp)
    net_income := (List.range n).map (net_income_at inp)
    capex := (List.range n).map (capex_at inp)
    free_cash_flow := (List.range n).map (fcf_at inp)
    capacity_factor := (List.range n).map (cf_at inp) }

theorem getD_range_map {α : Type} (f : ℕ → α) (d : α) {n i : ℕ}
    (h : i < n) : ((List.range n).map f).getD i d = f i := by
  rw [List.getD_eq_getElem?_getD, List.getElem?_map, List.getElem?_range h]
  rfl

theorem interest_list_getD_zero (rate A bal : ℚ) (n : ℕ) (h : 0 < n) :
    (Cashflow.interest_list rate A n bal).getD 0 0 = bal * rate := by
  cases n with
  | zero => exact absurd h (by omega)
  | succ k => rfl

theorem interest_list_getElem_zero (rate A bal : ℚ) (n : ℕ) (h : 0 < n) :
    (Cashflow.interest_list rate A n bal)[0]? = some (bal * rate) := by
  cases n with
  | zero => exact absurd h (by omega)
  | succ k => simp [Cashflow.interest_list]

/-! ## Claim theorems about the cash-flow engine -/

/-- C3: for every year of the produced CashFlowTimeSeries, EBITDA equals
revenue minus the sum of fuel, variable O&M, fixed O&M, carbon and outage
costs, exactly; the identity is unconditional in the inputs, so negative
EBITDA years satisfy it unmodified (no flooring anywhere in the chain). -/
theorem ebitda_identity (inp : CashflowInputs) (i : ℕ)
    (h : i < Cashflow.n_years inp) :
    (compute_cashflows_timeseries inp).ebitda.getD i 0 =
      (compute_cashflows_timeseries inp).revenue.getD i 0 -
        ((compute_cashflows_timeseries inp).fuel_costs.getD i 0 +
         (compute_cashflows_timeseries inp).variable_opex.getD i 0 +
         (compute_cashflows_timeseries inp).fixed_opex.getD i 0 +
         (compute_cashflows_timeseries inp).carbon_costs.getD i 0 +
         (compute_cashflows_timeseries inp).outage_costs.getD i 0) := by
  simp only [compute_cashflows_timeseries, getD_range_map _ _ h]
  simp [Cashflow.ebitda_at, Cashflow.total_costs_at]

/-- Inputs producing a negative year-1 EBITDA (large fixed O&M): used to
instantiate the EBITDA identity on a loss-making year. -/
def exampleNegInputs : CashflowInputs :=
  { pp := { capacity_mw := some 100, power_price_per_mwh := some 10,
            heat_rate_mmbtu_mwh := some 0, fuel_price_per_mmbtu := some 0,
            fixed_opex_per_kw_year := some 1000, variable_opex_per_mwh := some 0,
            emissions_tCO2_per_mwh := some 0, total_capex_million := some 1000,
            useful_life := some 20, tax_rate := some (1/4),
            debt_fraction := some (1/2), debt_interest_rate := some (1/20),
            debt_tenor_years := some 10 }
    carbon_price := fun _ => 0
    ta := { capacity_factor := 1/2, operating_years := 3 }
    pa := { outage_rate := 0, capacity_derate := 0, efficiency_loss := 0 }
    market := none
    start_year := 2025 }

theorem ebitda_identity_witness :
    0 < Cashflow.n_years exampleNegInputs ∧
    (compute_cashflows_timeseries exampleNegInputs).ebitda.getD 0 0 =
      (compute_cashflows_timeseries exampleNegInputs).revenue.getD 0 0 -
        ((compute_cashflows_timeseries exampleNegInputs).fuel_costs.getD 0 0 +
         (compute_cashflows_timeseries exampleNegInputs).variable_opex.getD 0 0 +
         (compute_cashflows_timeseries exampleNegInputs).fixed_opex.getD 0 0 +
         (compute_cashflows_timeseries exampleNegInputs).carbon_costs.getD 0 0 +
         (compute_cashflows_timeseries exampleNegInputs).outage_costs.getD 0 0) :=
  ⟨by norm_num [Cashflow.n_years, exampleNegInputs],
   ebitda_identity exampleNegInputs 0
     (by norm_num [Cashflow.n_years, exampleNegInputs])⟩

/-- The round-trip example plant of the spec: 1000 MW, capacity factor 0.5,
zero fuel/variable/fixed cost rates, zero carbon price, zero outage, CAPEX
one billion over a 20-year life, 50 percent debt at 5 percent over 10 years,
25 percent tax, 100 dollars per MWh. -/
def exampleInputs : CashflowInputs :=
  { pp := { capacity_mw := some 1000, power_price_per_mwh := some 100,
            heat_rate_mmbtu_mwh := some 0, fuel_price_per_mmbtu := some 0,
            fixed_opex_per_kw_year := some 0, variable_opex_per_mwh := some 0,
            emissions_tCO2_per_mwh := some (19/20), total_capex_million := some 1000,
            useful_life := some 20, tax_rate := some (1/4),
            debt_fraction := some (1/2), debt_interest_rate := some (1/20),
            debt_tenor_years := some 10 }
    carbon_price := fun _ => 0
    ta := { capacity_factor := 1/2, operating_years := 20 }
    pa := { outage_rate := 0, capacity_derate := 0, efficiency_loss := 0 }
    market := none
    start_year := 2025 }

/-- C5: on the example scenario, year 1 has revenue 438,000,000 =
1000 x 8760 x 0.5 x 100, depreciation 50,000,000, interest 25,000,000
(5 percent of the 500,000,000 debt balance), taxable income 363,000,000,
tax 90,750,000 and net income 272,250,000, exactly. -/
theorem example_scenario_year1_values :
    (compute_cashflows_timeseries exampleInputs).revenue.getD 0 0 = 438000000 ∧
    (compute_cashflows_timeseries exampleInputs).depreciation.getD 0 0 = 50000000 ∧
    (compute_cashflows_timeseries exampleInputs).interest_expense.getD 0 0 = 25000000 ∧
    (compute_cashflows_timeseries exampleInputs).ebit.getD 0 0 -
      (compute_cashflows_timeseries exampleInputs).interest_expense.getD 0 0
      = 363000000 ∧
    (compute_cashflows_timeseries exampleInputs).tax_expense.getD 0 0 = 90750000 ∧
    (compute_cashflows_timeseries exampleInputs).net_income.getD 0 0 = 272250000 := by
  have h : (0 : ℕ) < Cashflow.n_years exampleInputs := by
    norm_num [Cashflow.n_years, exampleInputs]
  refine ⟨?_, ?_, ?_, ?_, ?_, ?_⟩ <;>
    simp only [compute_cashflows_timeseries, getD_range_map _ _ h] <;>
    norm_num [Cashflow.revenue_at, Cashflow.annual_mwh_at, Cashflow.cf_at,
      Cashflow.base_cf_at, Cashflow.price_at, Cashflow.capacity, Cashflow.price,
      Cashflow.depreciation_at, Cashflow.total_capex, Cashflow.useful_life,
      Cashflow.interest_expense_at, Cashflow.debt_interest, Cashflow.debt_tenor,
      Cashflow.debt_amount, Cashflow.debt_fraction, Cashflow.n_years,
      interest_list_getD_zero, Cashflow.ebit_at, Cashflow.ebitda_at,
      Cashflow.total_costs_at, Cashflow.fuel_costs_at, Cashflow.variable_opex_at,
      Cashflow.fixed_opex_at, Cashflow.carbon_costs_at, Cashflow.outage_costs_at,
      Cashflow.heat_rate, Cashflow.fuel_price, Cashflow.fixed_opex_per_kw,
      Cashflow.variable_opex_per_mwh, Cashflow.emissions_rate,
      Cashflow.tax_expense_at, Cashflow.taxable_income_at, Cashflow.tax_rate,
      Cashflow.net_income_at, interest_list_getElem_zero, max_def, exampleInputs]

/-- The same inputs with the physical capacity derate and outage rate
replaced, every other field unchanged. -/
def withPhysical (inp : CashflowInputs) (derate outage : ℚ) : CashflowInputs :=
  { inp with
    pa := { inp.pa with capacity_derate := derate, outage_rate := outage } }

/-- C8: with the plant parameters, transition adjustment, market scenario and
start year fixed in their documented domains (nonnegative capacity and
capacity factor, demand growth above -100 percent), raising the physical
capacity derate and the outage rate never increases any year's effective
generation capacity_mw x 8760 x capacity_factor; the outage rate does not
enter the capacity factor at all. -/
theorem effective_generation_antitone_in_physical_risk
    (inp : CashflowInputs) (derate2 outage2 : ℚ) (i : ℕ)
    (hi : i < Cashflow.n_years inp)
    (hcap : 0 ≤ Cashflow.capacity inp)
    (hcf : 0 ≤ inp.ta.capacity_factor)
    (hmkt : ∀ m ∈ inp.market, -100 < m.demand_growth_pct)
    (hd : inp.pa.capacity_derate ≤ derate2) :
    Cashflow.capacity inp * 8760 *
      (compute_cashflows_timeseries
        (withPhysical inp derate2 outage2)).capacity_factor.getD i 0 ≤
    Cashflow.capacity inp * 8760 *
      (compute_cashflows_timeseries inp).capacity_factor.getD i 0 := by
  set inp2 : CashflowInputs := withPhysical inp derate2 outage2 with hinp2
  have hi2 : i < Cashflow.n_years inp2 := hi
  have hb : 0 ≤ Cashflow.base_cf_at inp i := by
    unfold Cashflow.base_cf_at
    cases hm : inp.market with
    | none => simpa using hcf
    | some m =>
      have hg := hmkt m (by simp [hm])
      have hbase : (0 : ℚ) < 1 + m.demand_growth_pct / 100 := by linarith
      have hdf : 0 < m.get_demand_factor (Cashflow.yearAt inp i) inp.start_year :=
        zpow_pos hbase _
      exact le_min (by norm_num) (mul_nonneg hcf hdf.le)
  have hbase_eq : Cashflow.base_cf_at inp2 i = Cashflow.base_cf_at inp i := rfl
  have hcfle : Cashflow.cf_at inp2 i ≤ Cashflow.cf_at inp i := by
    unfold Cashflow.cf_at
    rw [hbase_eq, hinp2]
    refine max_le_max (min_le_min ?_ (le_refl _)) (le_refl 0)
    exact mul_le_mul_of_nonneg_left (sub_le_sub_left hd 1) hb
  simp only [compute_cashflows_timeseries, getD_range_map _ _ hi,
    getD_range_map _ _ hi2]
  exact mul_le_mul_of_nonneg_left hcfle (by positivity)

/-! ## Debt amortization (src/financials/metrics.py, calculate_debt_service) -/

namespace Metrics

/-- The amortization loop of calculate_debt_service: principal and interest
schedules and the final balance. This function has no balance floor. -/
def amort_schedule (rate A : ℚ) : ℕ → ℚ → List ℚ × List ℚ × ℚ
  | 0, balance => ([], [], balance)
  | n + 1, balance =>
    let interest := balance * rate
    let principal := A - interest
    let rest := amort_schedule rate A n (balance - principal)
    (principal :: rest.1, interest :: rest.2.1, rest.2.2)

end Metrics

/-- Debt financing structure (dataclass DebtStructure). -/
structure DebtStructure where
  debt_amount : ℚ
  interest_rate : ℚ
  tenor_years : ℕ
  annual_debt_service : ℚ
  principal_schedule : List ℚ
  interest_schedule : List ℚ

/-- calculate_debt_service: level debt service (annuity) with the
amortization schedule built year by year. -/
def calculate_debt_service (total_capex debt_fraction interest_rate : ℚ)
    (tenor_years : ℕ) : DebtStructure :=
  let debt_amount := total_capex * debt_fraction
  let annual_ds := -(Cashflow.npf_pmt interest_rate tenor_years debt_amount)
  let sched := Metrics.amort_schedule interest_rate annual_ds tenor_years debt_amount
  { debt_amount := debt_amount
    interest_rate := interest_rate
    tenor_years := tenor_years
    annual_debt_service := annual_ds
    principal_schedule := sched.1
    interest_schedule := sched.2.1 }

theorem amort_schedule_year_identity (rate A : ℚ) :
    ∀ (n : ℕ) (b : ℚ) (i : ℕ), i < n →
      (Metrics.amort_schedule rate A n b).1.getD i 0 +
        (Metrics.amort_schedule rate A n b).2.1.getD i 0 = A
  | 0, _, i, h => absurd h (by omega)
  | n + 1, b, 0, _ => by
    show (A - b * rate) + b * rate = A
    ring
  | n + 1, b, i + 1, h => by
    have ih := amort_schedule_year_identity rate A n (b - (A - b * rate)) i (by omega)
    simpa [Metrics.amort_schedule] using ih

theorem amort_schedule_sum_principal (rate A : ℚ) :
    ∀ (n : ℕ) (b : ℚ),
      (Metrics.amort_schedule rate A n b).1.sum =
        b - (Metrics.amort_schedule rate A n b).2.2
  | 0, b => by simp [Metrics.amort_schedule]
  | n + 1, b => by
    have ih := amort_schedule_sum_principal rate A n (b - (A - b * rate))
    simp only [Metrics.amort_schedule, List.sum_cons, ih]
    ring

theorem amort_schedule_final_balance (rate A : ℚ) (hr : rate ≠ 0) :
    ∀ (n : ℕ) (b : ℚ),
      (Metrics.amort_schedule rate A n b).2.2
        = b * (1 + rate) ^ n - A * (((1 + rate) ^ n - 1) / rate)
  | 0, b => by simp [Metrics.amort_schedule]
  | n + 1, b => by
    have ih := amort_schedule_final_balance rate A hr n (b - (A - b * rate))
    simp only [Metrics.amort_schedule, ih]
    field_simp
    ring

/-- C4: for positive CAPEX, a debt fraction in (0,1], a positive interest
rate and a tenor of at least one year, each year of the schedule pays
principal plus interest equal to the constant annual debt service, and the
principal schedule sums exactly (in rational arithmetic) to the borrowed
amount total_capex * debt_fraction. -/
theorem debt_service_schedule_properties
    (total_capex df rate : ℚ) (tenor : ℕ)
    (hcapex : 0 < total_capex) (hdf0 : 0 < df) (hdf1 : df ≤ 1)
    (hrate : 0 < rate) (htenor : 1 ≤ tenor) :
    (∀ i, i < tenor →
      (calculate_debt_service total_capex df rate tenor).principal_schedule.getD i 0 +
        (calculate_debt_service total_capex df rate tenor).interest_schedule.getD i 0 =
        (calculate_debt_service total_capex df rate tenor).annual_debt_service) ∧
    (calculate_debt_service total_capex df rate tenor).principal_schedule.sum =
      total_capex * df := by
  constructor
  · intro i hi
    simp only [calculate_debt_service]
    exact amort_schedule_year_identity _ _ tenor _ i hi
  · simp only [calculate_debt_service]
    have hx : (1 : ℚ) < (1 + rate) ^ tenor :=
      one_lt_pow (by linarith) (by omega)
    have hne : (1 + rate) ^ tenor - 1 ≠ 0 := by linarith
    have hA : -(Cashflow.npf_pmt rate tenor (total_capex * df))
        = total_capex * df * rate * (1 + rate) ^ tenor
            / ((1 + rate) ^ tenor - 1) := by
      unfold Cashflow.npf_pmt
      rw [if_neg (ne_of_gt hrate)]
      ring
    rw [amort_schedule_sum_principal,
      amort_schedule_final_balance rate _ (ne_of_gt hrate), hA]
    field_simp
    ring

theorem debt_service_schedule_witness :
    (calculate_debt_service 1000 (1/2) (1/10) 2).principal_schedule.getD 0 0 +
      (calculate_debt_service 1000 (1/2) (1/10) 2).interest_schedule.getD 0 0 =
      (calculate_debt_service 1000 (1/2) (1/10) 2).annual_debt_service ∧
    (calculate_debt_service 1000 (1/2) (1/10) 2).principal_schedule.sum =
      1000 * (1/2) :=
  ⟨(debt_service_schedule_properties 1000 (1/2) (1/10) 2 (by norm_num)
      (by norm_num) (by norm_num) (by norm_num) (by norm_num)).1 0 (by norm_num),
   (debt_service_schedule_properties 1000 (1/2) (1/10) 2 (by norm_num)
      (by norm_num) (by norm_num) (by norm_num) (by norm_num)).2⟩

theorem effective_generation_antitone_witness :
    Cashflow.capacity exampleInputs * 8760 *
      (compute_cashflows_timeseries
        (withPhysical exampleInputs (1/10) (1/10))).capacity_factor.getD 0 0 ≤
    Cashflow.capacity exampleInputs * 8760 *
      (compute_cashflows_timeseries exampleInputs).capacity_factor.getD 0 0 :=
  effective_generation_antitone_in_physical_risk exampleInputs (1/10) (1/10) 0
    (by norm_num [Cashflow.n_years, exampleInputs])
    (by norm_num [Cashflow.capacity, exampleInputs])
    (by norm_num [exampleInputs])
    (by simp [exampleInputs])
    (by norm_num [exampleInputs])

/-! ## Carbon pricing scenarios (src/scenarios/carbon_pricing.py)

price_trajectory models the Python dict with its keys listed in ascending
year order (get_carbon_price sorts the keys before use). Prices are stored
as rationals, but the geometric extrapolation beyond the last trajectory
year takes a fractional power, so get_carbon_price is real-valued (the
source computes it in floating point). -/

/-- Carbon pricing trajectory (dataclass CarbonPricingScenario). -/
structure CarbonPricingScenario where
  name : String
  price_trajectory : List (ℤ × ℚ)
  description : String := ""
  source : String := ""
  includes_ets : Bool := true
  includes_carbon_tax : Bool := false

/-- The interpolation loop of get_carbon_price: the first consecutive pair
of trajectory years bracketing the queried year yields the linear
interpolation; none if no pair brackets it. -/
def interp_price (year : ℤ) : List (ℤ × ℚ) → Option ℚ
  | (y0, p0) :: (y1, p1) :: rest =>
    if y0 ≤ year ∧ year ≤ y1 then
      some (p0 + (((year - y0 : ℤ) : ℚ) / ((y1 - y0 : ℤ) : ℚ)) * (p1 - p0))
    else interp_price year ((y1, p1) :: rest)
  | _ => none

/-- The beyond-last-year branch of get_carbon_price: with at least two
trajectory points and a positive second-to-last price, extrapolate the last
price geometrically at the growth rate implied by the last two points;
otherwise return the last price. -/
noncomputable def extrapolate_beyond (traj : List (ℤ × ℚ)) (year : ℤ) : ℝ :=
  match traj.reverse with
  | (y2, p2) :: (y1, p1) :: _ =>
    if 0 < p1 then
      let annual_growth : ℝ :=
        ((p2 : ℝ) / (p1 : ℝ)) ^ ((1 : ℝ) / ((y2 : ℝ) - (y1 : ℝ))) - 1
      (p2 : ℝ) * (1 + annual_growth) ^ (year - y2).toNat
    else (p2 : ℝ)
  | (_, p2) :: [] => (p2 : ℝ)
  | [] => 0

/-- get_carbon_price: first-year clamp, beyond-last extrapolation (guarded
by the positive-price check), linear interpolation in between, and the
final fallback to the last price. -/
noncomputable def CarbonPricingScenario.get_carbon_price
    (s : CarbonPricingScenario) (year : ℤ) : ℝ :=
  match s.price_trajectory with
  | [] => 0
  | (y0, p0) :: rest =>
    if year ≤ y0 then (p0 : ℝ)
    else if (((y0, p0) :: rest).getLastD (y0, p0)).1 ≤ year then
      extrapolate_beyond ((y0, p0) :: rest) year
    else
      match interp_price year ((y0, p0) :: rest) with
      | some p => (p : ℝ)
      | none => ((((y0, p0) :: rest).getLastD (y0, p0)).2 : ℝ)

/-- create_no_policy_baseline: zero price for every year 2024..2060. -/
def create_no_policy_baseline : CarbonPricingScenario :=
  { name := "no_policy_baseline"
    price_trajectory := (List.range 37).map (fun i => ((2024 + i : ℤ), (0 : ℚ)))
    description := "Hypothetical no carbon pricing (COUNTERFACTUAL - for comparison only)"
    source := "Hypothetical baseline"
    includes_ets := false
    includes_carbon_tax := false }

theorem interp_price_zero (year : ℤ) :
    ∀ (l : List (ℤ × ℚ)) (p : ℚ), (∀ x ∈ l, x.2 = 0) →
      interp_price year l = some p → p = 0
  | [], _, _, hp => by simp [interp_price] at hp
  | [a], _, _, hp => by simp [interp_price] at hp
  | (y0, p0) :: (y1, p1) :: rest, p, hz, hp => by
    rw [interp_price] at hp
    split_ifs at hp with h
    · have h0 : p0 = 0 := hz (y0, p0) (by simp)
      have h1 : p1 = 0 := hz (y1, p1) (by simp)
      rw [h0, h1] at hp
      simpa using hp.symm
    · exact interp_price_zero year ((y1, p1) :: rest) p
        (fun x hx => hz x (List.mem_cons_of_mem _ hx)) hp

theorem extrapolate_beyond_zero (traj : List (ℤ × ℚ)) (year : ℤ)
    (hz : ∀ x ∈ traj, x.2 = 0) : extrapolate_beyond traj year = 0 := by
  unfold extrapolate_beyond
  rcases hr : traj.reverse with _ | ⟨⟨y2, p2⟩, tl⟩
  · simp
  · have h2 : p2 = 0 := by
      have hm : (y2, p2) ∈ traj := by rw [← List.mem_reverse, hr]; simp
      exact hz _ hm
    rcases tl with _ | ⟨⟨y1, p1⟩, tl2⟩
    · simp [h2]
    · have h1 : p1 = 0 := by
        have hm : (y1, p1) ∈ traj := by rw [← List.mem_reverse, hr]; simp
        exact hz _ hm
      simp [h1, h2]

theorem get_carbon_price_zero (s : CarbonPricingScenario)
    (hz : ∀ x ∈ s.price_trajectory, x.2 = 0) (year : ℤ) :
    s.get_carbon_price year = 0 := by
  rcases ht : s.price_trajectory with _ | ⟨⟨y0, p0⟩, rest⟩
  · simp [CarbonPricingScenario.get_carbon_price, ht]
  · rw [ht] at hz
    have h0 : p0 = 0 := hz (y0, p0) (by simp)
    have hne : ((y0, p0) :: rest) ≠ [] := by simp
    have hlast : (((y0, p0) :: rest).getLastD (y0, p0)).2 = 0 := by
      have hm : ((y0, p0) :: rest).getLastD (y0, p0) ∈ (y0, p0) :: rest := by
        simp only [List.getLastD_eq_getLast?,
          List.getLast?_eq_getLast_of_ne_nil hne, Option.getD_some]
        exact List.getLast_mem hne
      exact hz _ hm
    simp only [CarbonPricingScenario.get_carbon_price, ht]
    split_ifs with hy1 hy2
    · exact_mod_cast h0
    · exact extrapolate_beyond_zero _ _ hz
    · cases hip : interp_price year ((y0, p0) :: rest) with
      | none => simpa using hlast
      | some p =>
        have := interp_price_zero year ((y0, p0) :: rest) p hz hip
        simp [this]

/-- C9: the no-policy baseline scenario returns a carbon price of exactly 0
for every integer year: before the first trajectory year, inside the
2024..2060 trajectory, and in the extrapolation region beyond it (where the
geometric extrapolation is guarded by a positive-price check that a zero
trajectory never passes). -/
theorem no_policy_carbon_price_zero (year : ℤ) :
    create_no_policy_baseline.get_carbon_price year = 0 := by
  apply get_carbon_price_zero
  intro x hx
  simp only [create_no_policy_baseline, List.mem_map, List.mem_range] at hx
  obtain ⟨i, _, hxi⟩ := hx
  rw [← hxi]

/-! ## Scenario loading in the pipeline runner (src/pipeline/runner.py)

The runner holds name-keyed catalogs loaded at startup; lookups model dict
.get as Option-valued functions. -/

/-- CLIMADA hazard record (src/climada/hazards.py, dataclass
CLIMADAHazardData). -/
structure CLIMADAHazardData where
  wildfire_outage_rate : ℚ
  flood_outage_rate : ℚ
  slr_capacity_derate : ℚ
  compound_multiplier : ℚ := 1
  fwi_index : ℚ := 0
  flood_return_period : ℚ := 100
  slr_meters : ℚ := 0
  data_source : String := ""
  notes : String := ""

/-- Physical scenario record (src/scenarios/base.py). -/
structure PhysicalScenario where
  name : String
  wildfire_outage_rate : ℚ
  drought_derate : ℚ
  cooling_temp_penalty : ℚ
  water_availability_pct : ℚ := 100

/-- Transition scenario record (src/scenarios/base.py) as assembled by the
runner; the linked carbon pricing scenario is attached when its name
resolves in the carbon catalog. -/
structure TransitionScenario where
  name : String
  dispatch_priority_penalty : ℚ
  retirement_years : ℤ
  carbon_price_2025 : ℚ
  carbon_price_2030 : ℚ
  carbon_price_2040 : ℚ
  carbon_price_2050 : ℚ
  carbon_scenario_name : Option String := none
  carbon_scenario : Option CarbonPricingScenario := none

/-- A row of the policy scenario table; absent columns are none, read with
the .get defaults of _load_transition_scenario. -/
structure PolicyRow where
  dispatch_penalty : Option ℚ := none
  retirement_years : Option ℚ := none
  carbon_price_2025 : Option ℚ := none
  carbon_price_2030 : Option ℚ := none
  carbon_price_2040 : Option ℚ := none
  carbon_price_2050 : Option ℚ := none
  carbon_scenario : Option String := none

/-- A row of the physical risk table. -/
structure PhysicalRiskRow where
  wildfire_outage_rate : Option ℚ := none
  drought_derate : Option ℚ := none
  cooling_temp_penalty : Option ℚ := none
  water_availability_pct : Option ℚ := none

/-- The name-keyed catalogs the CRPModelRunner loads at startup. -/
structure RunnerCatalogs where
  policy_scenarios : String → Option PolicyRow
  physical_risks : String → Option PhysicalRiskRow
  climada_hazards : String → Option CLIMADAHazardData
  carbon_scenarios : String → Option CarbonPricingScenario

/-- Python int() truncation toward zero on a rational. -/
def int_of (q : ℚ) : ℤ := if q < 0 then -⌊-q⌋ else ⌊q⌋

/-- Python str.lower(), modelled characterwise (ASCII lowercasing). -/
def str_lower (s : String) : String := String.mk (s.data.map Char.toLower)

/-- _load_transition_scenario: a missing scenario name raises ValueError
(modelled as Except.error; the source surrounds the name with single
quotes, omitted here); otherwise the scenario is built from the row with
defaults and the named carbon scenario is linked when it resolves. -/
def load_transition_scenario (cat : RunnerCatalogs) (scenario_name : String) :
    Except String TransitionScenario :=
  match cat.policy_scenarios scenario_name with
  | none => .error ("Transition scenario " ++ scenario_name ++ " not found")
  | some row =>
    let carbon_scenario_name := row.carbon_scenario
    let scenario : TransitionScenario :=
      { name := scenario_name
        dispatch_priority_penalty := row.dispatch_penalty.getD 0
        retirement_years := int_of (row.retirement_years.getD 40)
        carbon_price_2025 := row.carbon_price_2025.getD 0
        carbon_price_2030 := row.carbon_price_2030.getD 0
        carbon_price_2040 := row.carbon_price_2040.getD 0
        carbon_price_2050 := row.carbon_price_2050.getD 0
        carbon_scenario_name := carbon_scenario_name }
    match carbon_scenario_name with
    | some cname =>
      match cat.carbon_scenarios cname with
      | some cs => .ok { scenario with carbon_scenario := some cs }
      | none => .ok scenario
    | none => .ok scenario

/-- get_physical_risk_scenario (src/risk/physical.py): severity levels by
lowercased name, defaulting to the Low baseline. -/
def get_physical_risk_scenario (level : String) : PhysicalScenario :=
  let l := str_lower level
  if l = "low" then
    { name := "Low Risk", wildfire_outage_rate := 0, drought_derate := 0,
      cooling_temp_penalty := 0, water_availability_pct := 100 }
  else if l = "medium" then
    { name := "Medium Risk", wildfire_outage_rate := 1/100, drought_derate := 2/100,
      cooling_temp_penalty := 1/100, water_availability_pct := 90 }
  else if l = "high" then
    { name := "High Risk", wildfire_outage_rate := 3/100, drought_derate := 5/100,
      cooling_temp_penalty := 3/100, water_availability_pct := 80 }
  else if l = "extreme" then
    { name := "Extreme Risk", wildfire_outage_rate := 5/100, drought_derate := 1/10,
      cooling_temp_penalty := 5/100, water_availability_pct := 60 }
  else
    { name := "Baseline (Low)", wildfire_outage_rate := 0, drought_derate := 0,
      cooling_temp_penalty := 0, water_availability_pct := 100 }

/-- _load_physical_scenario: CLIMADA catalog first, then the hardcoded
severe_drought, then the dynamic severity levels, then the physical risk
table; an unknown name FALLS BACK to the Low scenario instead of raising. -/
def load_physical_scenario (cat : RunnerCatalogs) (scenario_name : String) :
    PhysicalScenario ⊕ CLIMADAHazardData :=
  match cat.climada_hazards scenario_name with
  | some hazard => .inr hazard
  | none =>
    if scenario_name = "severe_drought" then
      .inl { name := "severe_drought", wildfire_outage_rate := 5/100,
             drought_derate := 5/100, cooling_temp_penalty := 2/100,
             water_availability_pct := 50 }
    else if str_lower scenario_name ∈ ["low", "medium", "high", "extreme"] then
      .inl (get_physical_risk_scenario scenario_name)
    else
      match cat.physical_risks scenario_name with
      | none => .inl (get_physical_risk_scenario "Low")
      | some row =>
        .inl { name := scenario_name
               wildfire_outage_rate := row.wildfire_outage_rate.getD 0
               drought_derate := row.drought_derate.getD 0
               cooling_temp_penalty := row.cooling_temp_penalty.getD 0
               water_availability_pct := row.water_availability_pct.getD 100 }

/-- Runner catalogs with nothing loaded. -/
def emptyCatalogs : RunnerCatalogs :=
  { policy_scenarios := fun _ => none
    physical_risks := fun _ => none
    climada_hazards := fun _ => none
    carbon_scenarios := fun _ => none }

/-- C2 counterexample: a physical scenario name absent from every catalog
does not fail the run; _load_physical_scenario silently substitutes the
built-in Low default, contradicting the fail-fast claim for the physical
lookup. -/
theorem physical_scenario_fallback_counterexample :
    load_physical_scenario emptyCatalogs "missing_scenario" =
      Sum.inl (get_physical_risk_scenario "Low") := by
  rfl

/-- C2 amended: the transition lookup fails fast with an error surfacing
the missing scenario name, but the physical lookup never fails: when the
name is in none of the CLIMADA catalog, the hardcoded severe_drought case,
the dynamic severity levels, and the physical risk table, it silently
falls back to the built-in Low scenario. -/
theorem scenario_lookup_behavior (cat : RunnerCatalogs) (scenario_name : String)
    (hpol : cat.policy_scenarios scenario_name = none)
    (hcli : cat.climada_hazards scenario_name = none)
    (hsd : scenario_name ≠ "severe_drought")
    (hlvl : str_lower scenario_name ∉ ["low", "medium", "high", "extreme"])
    (hphy : cat.physical_risks scenario_name = none) :
    load_transition_scenario cat scenario_name =
      .error ("Transition scenario " ++ scenario_name ++ " not found") ∧
    load_physical_scenario cat scenario_name =
      Sum.inl (get_physical_risk_scenario "Low") := by
  constructor
  · simp [load_transition_scenario, hpol]
  · simp [load_physical_scenario, hcli, hsd, hlvl, hphy]

theorem scenario_lookup_behavior_witness :
    load_transition_scenario emptyCatalogs "missing_scenario" =
      .error ("Transition scenario " ++ "missing_scenario" ++ " not found") ∧
    load_physical_scenario emptyCatalogs "missing_scenario" =
      Sum.inl (get_physical_risk_scenario "Low") :=
  scenario_lookup_behavior emptyCatalogs "missing_scenario" rfl rfl
    (by decide) (by decide) rfl

end RiskPremium
